import Mathlib

/-!
# MultiplayerSessions plugin: the session subsystem and the menu widget

A shallow embedding of `MultiplayerSessionsSubsystem.cpp` and `Menu.cpp`.

The two classes are embedded together, in one `World`: the subsystem's
multicast delegates call the menu's callbacks when the menu is bound to them,
and the menu's callbacks call back into the subsystem, exactly as in the source.
Everything the code does to the outside (engine calls, broadcasts, travel
requests) is appended to `World.log` in the order the source performs it.

The engine is outside the repository.  Its answers during one entry into the
code are given by an `Env`; its completion callbacks (`On...Complete`) are
separate entries, delivered after the call that started the operation has
returned.
-/

namespace MenuSystem

/-! ## Engine data types -/

/-- Engine strings.  Their `==` in the source is `eqIgnoreCase` below. -/
abbrev FString := String

/-- Engine names, compared like `FString`. -/
abbrev FName := String

/-- The engine's `==` on strings and on names: it ignores the case of the
letters `A` to `Z`. -/
def eqIgnoreCase (a b : String) : Bool :=
  a.data.map Char.toLower == b.data.map Char.toLower

/-- Handles the engine gives out for registered delegates. -/
abbrev FDelegateHandle := Nat

/-- Net ids of players. -/
abbrev FUniqueNetId := Nat

/-- Engine constant naming the game session. -/
def NAME_GameSession : FName := "GameSession"

/-- Engine constant: the query-setting key selecting lobby searches. -/
def SEARCH_LOBBIES : FName := "LOBBYSEARCH"

/-- Engine enumeration `EOnJoinSessionCompleteResult::Type`.  The source names
only `Success` and `UnknownError`. -/
inductive EOnJoinSessionCompleteResult where
  | Success
  | SessionIsFull
  | SessionDoesNotExist
  | CouldNotRetrieveAddress
  | AlreadyInSession
  | UnknownError
  deriving DecidableEq, Repr

/-- Engine enumeration `EOnlineDataAdvertisementType::Type`. -/
inductive EOnlineDataAdvertisementType where
  | DontAdvertise
  | ViaPingOnly
  | ViaOnlineService
  | ViaOnlineServiceAndPing
  deriving DecidableEq, Repr

/-- Engine enumeration `ETravelType`. -/
inductive ETravelType where
  | TRAVEL_Absolute
  | TRAVEL_Partial
  | TRAVEL_Relative
  deriving DecidableEq, Repr

/-- One keyed session setting: its (string) value and how it is advertised. -/
structure FOnlineSessionSetting where
  Data : FString
  AdvertisementType : EOnlineDataAdvertisementType
  deriving DecidableEq, Repr

/-- The fields of the engine's `FOnlineSessionSettings` that the source writes
or reads. -/
structure FOnlineSessionSettings where
  NumPublicConnections : Int
  bShouldAdvertise : Bool
  bAllowJoinInProgress : Bool
  bIsLANMatch : Bool
  bUsesPresence : Bool
  bAllowJoinViaPresence : Bool
  bUseLobbiesIfAvailable : Bool
  BuildUniqueId : Int
  Settings : List (FName × FOnlineSessionSetting)
  deriving DecidableEq, Repr

/-- The object made by `new FOnlineSessionSettings()`: no keyed setting yet. -/
def FOnlineSessionSettings.new : FOnlineSessionSettings :=
  { NumPublicConnections := 0, bShouldAdvertise := false, bAllowJoinInProgress := false,
    bIsLANMatch := false, bUsesPresence := false, bAllowJoinViaPresence := false,
    bUseLobbiesIfAvailable := false, BuildUniqueId := 0, Settings := [] }

/-- Method `Set(Key, Value, Type)`: the setting stored under `Key` becomes `Value`. -/
def FOnlineSessionSettings.Set (s : FOnlineSessionSettings) (Key : FName) (Value : FString)
    (AdvertisementType : EOnlineDataAdvertisementType) : FOnlineSessionSettings :=
  { s with Settings := s.Settings.filter (fun e => !eqIgnoreCase e.1 Key) ++ [(Key, ⟨Value, AdvertisementType⟩)] }

/-- Method `Get(Key, Value)` with `Value` an out-parameter: the value stored under
`Key`, and the caller's `Value` untouched when there is none. -/
def FOnlineSessionSettings.Get (s : FOnlineSessionSettings) (Key : FName) (Value : FString) :
    FString :=
  match s.Settings.find? (fun e => eqIgnoreCase e.1 Key) with
  | some e => e.2.Data
  | none => Value

structure FOnlineSession where
  OwningUserName : FString
  SessionSettings : FOnlineSessionSettings
  deriving DecidableEq, Repr

structure FOnlineSessionSearchResult where
  Session : FOnlineSession
  PingInMs : Int
  deriving DecidableEq, Repr

/-- The fields of the engine's `FOnlineSessionSearch` that the source writes or
reads.  `QuerySettings` holds the entries this code sets; `SearchResults` is
filled in by the engine while the search runs. -/
structure FOnlineSessionSearch where
  MaxSearchResults : Int
  bIsLanQuery : Bool
  QuerySettings : List (FName × Bool)
  SearchResults : List FOnlineSessionSearchResult
  deriving DecidableEq, Repr

/-- The object made by `new FOnlineSessionSearch()`. -/
def FOnlineSessionSearch.new : FOnlineSessionSearch :=
  { MaxSearchResults := 0, bIsLanQuery := false, QuerySettings := [], SearchResults := [] }

/-- The asynchronous operations of the engine's session interface. -/
inductive ESessionOp where
  | Create
  | Find
  | Join
  | Destroy
  | Start
  deriving DecidableEq, Repr

/-! ## Observable events -/

/-- What the code does to the outside, plus entry markers (`Call...`, `Menu...`)
for the subsystem's public methods and the menu's callbacks. -/
inductive Event where
  /-- Call of `OnlineSessionPtr->AddOn<op>CompleteDelegate_Handle(...)` returning `h`. -/
  | AddDelegate_Handle (op : ESessionOp) (h : FDelegateHandle)
  /-- Call of `OnlineSessionPtr->ClearOn<op>CompleteDelegate_Handle(h)`. -/
  | ClearDelegate_Handle (op : ESessionOp) (h : FDelegateHandle)
  | EngineGetNamedSession (SessionName : FName)
  | EngineCreateSession (Id : FUniqueNetId) (SessionName : FName) (Settings : FOnlineSessionSettings)
  | EngineFindSessions (Id : FUniqueNetId) (Search : FOnlineSessionSearch)
  | EngineJoinSession (Id : FUniqueNetId) (SessionName : FName) (Result : FOnlineSessionSearchResult)
  | EngineDestroySession (SessionName : FName)
  | EngineGetResolvedConnectString (SessionName : FName)
  | BroadcastCreateSessionComplete (bWasSuccessful : Bool)
  | BroadcastFindSessionsComplete (SessionResults : List FOnlineSessionSearchResult)
      (bWasSuccessful : Bool)
  | BroadcastJoinSessionComplete (Result : EOnJoinSessionCompleteResult)
  | BroadcastDestroySessionComplete (bWasSuccessful : Bool)
  | BroadcastStartSessionComplete (bWasSuccessful : Bool)
  | CallCreateSession (NumPublicConnections : Int) (MatchType : FString)
  | CallFindSessions (MaxSearchResults : Int)
  | CallJoinSession (SessionResult : FOnlineSessionSearchResult)
  | CallDestroySession
  | CallStartSession
  | MenuOnCreateSession (bWasSuccessful : Bool)
  | MenuOnFindSessions (SessionResults : List FOnlineSessionSearchResult) (bWasSuccessful : Bool)
  | MenuOnJoinSession (Result : EOnJoinSessionCompleteResult)
  | MenuOnDestroySession (bWasSuccessful : Bool)
  | MenuOnStartSession (bWasSuccessful : Bool)
  | ServerTravel (URL : FString)
  | ClientTravel (URL : FString) (TravelType : ETravelType)
  | AddOnScreenDebugMessage (Message : FString)
  | AddToViewport
  | RemoveFromParent
  | SetVisibilityVisible
  | SetIsFocusable (b : Bool)
  | SetInputModeUIOnly
  | SetInputModeGameOnly
  | SetShowMouseCursor (b : Bool)
  deriving DecidableEq, Repr

/-! ## State -/

/-- The private fields of `UMultiplayerSessionsSubsystem`, and for each of its
five public multicast delegates whether the menu's callback is on its
invocation list. -/
structure UMultiplayerSessionsSubsystem where
  /-- Is `OnlineSessionPtr.IsValid()`. -/
  OnlineSessionPtr : Bool
  LastSessionSettings : Option FOnlineSessionSettings
  LastSessionSearch : Option FOnlineSessionSearch
  OnCreateSessionCompleteDelegateHandle : FDelegateHandle
  OnFindSessionsCompleteDelegateHandle : FDelegateHandle
  OnJoinSessionCompleteDelegateHandle : FDelegateHandle
  OnDestroySessionCompleteDelegateHandle : FDelegateHandle
  OnStartSessionCompleteDelegateHandle : FDelegateHandle
  bCreateSessionOnDestroy : Bool
  LastNumPublicConnections : Int
  LastMatchType : FString
  MultiplayerOnCreateSessionCompleteDelegate : Bool
  MultiplayerOnFindSessionsCompleteDelegate : Bool
  MultiplayerOnJoinSessionCompleteDelegate : Bool
  MultiplayerOnDestroySessionCompleteDelegate : Bool
  MultiplayerOnStartSessionCompleteDelegate : Bool
  deriving DecidableEq, Repr

/-- A button widget: only its enabled flag matters here. -/
structure UButton where
  bIsEnabled : Bool
  deriving DecidableEq, Repr

def UButton.SetIsEnabled (_b : UButton) (bInIsEnabled : Bool) : UButton :=
  { bIsEnabled := bInIsEnabled }

/-- The fields of `UMenu` used in `Menu.cpp`.  `MultiplayerSessionsSubsystem`
is whether that pointer is non-null. -/
structure UMenu where
  PathToLobby : FString
  NumPublicConnections : Int
  MatchType : FString
  MultiplayerSessionsSubsystem : Bool
  HostButton : UButton
  JoinButton : UButton
  deriving DecidableEq, Repr

/-- The engine's side of the session interface: for each operation the
handles of the completion delegates currently registered with it, and the
next handle it will give out. -/
structure OnlineSessionInterface where
  OnCreateSessionCompleteDelegates : List FDelegateHandle
  OnFindSessionsCompleteDelegates : List FDelegateHandle
  OnJoinSessionCompleteDelegates : List FDelegateHandle
  OnDestroySessionCompleteDelegates : List FDelegateHandle
  OnStartSessionCompleteDelegates : List FDelegateHandle
  NextHandle : FDelegateHandle
  deriving DecidableEq, Repr

structure World where
  subsystem : UMultiplayerSessionsSubsystem
  menu : UMenu
  session : OnlineSessionInterface
  log : List Event
  deriving DecidableEq, Repr

/-- What the engine answers during one entry into the code.  The world of the
subsystem, its first local player with a net id, the global engine object,
the menu's game instance and the two button widgets are taken to exist: the
source dereferences them without a test. -/
structure Env where
  /-- Value of `Online::GetSubsystem(GetWorld())->GetSubsystemName()`. -/
  SubsystemName : FName
  /-- Is `OnlineSessionPtr->GetNamedSession(name) != nullptr`. -/
  GetNamedSession : FName → Bool
  /-- Value of `*LocalPlayer->GetPreferredUniqueNetId()`. -/
  PreferredUniqueNetId : FUniqueNetId
  /-- Return values of the engine's four session operations. -/
  CreateSessionReturn : Bool
  FindSessionsReturn : Bool
  JoinSessionReturn : Bool
  DestroySessionReturn : Bool
  /-- The address the engine resolves for a session; `none` when it resolves
  none and leaves the out-parameter alone. -/
  GetResolvedConnectString : FName → Option FString
  /-- Is `UMenu::GetWorld()` non-null. -/
  MenuWorld : Bool
  /-- Is `World->GetFirstPlayerController()` non-null. -/
  FirstPlayerController : Bool
  /-- Is `UMenu::GetGameInstance()` non-null (read in `MenuSetup`). -/
  GameInstance : Bool
  /-- Is `GetGameInstance()->GetFirstLocalPlayerController()` non-null. -/
  FirstLocalPlayerController : Bool

/-! ## Engine-side primitives -/

def World.emit (w : World) (e : Event) : World :=
  { w with log := w.log ++ [e] }

def OnlineSessionInterface.Delegates (s : OnlineSessionInterface) : ESessionOp → List FDelegateHandle
  | .Create => s.OnCreateSessionCompleteDelegates
  | .Find => s.OnFindSessionsCompleteDelegates
  | .Join => s.OnJoinSessionCompleteDelegates
  | .Destroy => s.OnDestroySessionCompleteDelegates
  | .Start => s.OnStartSessionCompleteDelegates

def OnlineSessionInterface.setDelegates (s : OnlineSessionInterface) (op : ESessionOp)
    (l : List FDelegateHandle) : OnlineSessionInterface :=
  match op with
  | .Create => { s with OnCreateSessionCompleteDelegates := l }
  | .Find => { s with OnFindSessionsCompleteDelegates := l }
  | .Join => { s with OnJoinSessionCompleteDelegates := l }
  | .Destroy => { s with OnDestroySessionCompleteDelegates := l }
  | .Start => { s with OnStartSessionCompleteDelegates := l }

/-- Engine call `AddOn<op>CompleteDelegate_Handle`: the engine puts the delegate on its
list under a fresh handle and returns that handle. -/
def World.AddDelegate_Handle (w : World) (op : ESessionOp) : World × FDelegateHandle :=
  let h := w.session.NextHandle
  ({ w with
      session := { w.session.setDelegates op (w.session.Delegates op ++ [h]) with NextHandle := h + 1 },
      log := w.log ++ [Event.AddDelegate_Handle op h] }, h)

/-- Engine call `ClearOn<op>CompleteDelegate_Handle(h)`: the engine drops the delegate
registered under `h`. -/
def World.ClearDelegate_Handle (w : World) (op : ESessionOp) (h : FDelegateHandle) : World :=
  { w with
    session := w.session.setDelegates op ((w.session.Delegates op).filter (fun x => x != h)),
    log := w.log ++ [Event.ClearDelegate_Handle op h] }

/-! ## `Menu.cpp`, callbacks that call nothing back -/

namespace UMenu

/-- Source: `UMenu::OnCreateSession`. -/
def OnCreateSession (env : Env) (w : World) (bWasSuccessful : Bool) : World :=
  let w := w.emit (Event.MenuOnCreateSession bWasSuccessful)
  if bWasSuccessful then
    if env.MenuWorld then w.emit (Event.ServerTravel w.menu.PathToLobby) else w
  else
    let w := w.emit (Event.AddOnScreenDebugMessage "Create Session Failed.")
    { w with menu := { w.menu with HostButton := w.menu.HostButton.SetIsEnabled true } }

/-- Source: `UMenu::OnDestroySession` (empty body). -/
def OnDestroySession (_env : Env) (w : World) (bWasSuccessful : Bool) : World :=
  w.emit (Event.MenuOnDestroySession bWasSuccessful)

/-- Source: `UMenu::OnStartSession` (empty body). -/
def OnStartSession (_env : Env) (w : World) (bWasSuccessful : Bool) : World :=
  w.emit (Event.MenuOnStartSession bWasSuccessful)

end UMenu

/-! ## `MultiplayerSessionsSubsystem.cpp` and the rest of `Menu.cpp` -/

/-- Source: `UMultiplayerSessionsSubsystem::GetResolvedConnectString`; the
result is the value of the out-parameter `Address` on return. -/
def UMultiplayerSessionsSubsystem.GetResolvedConnectString (env : Env) (w : World)
    (SessionName : FName) (Address : FString) : World × FString :=
  if !w.subsystem.OnlineSessionPtr then (w, Address)
  else
    (w.emit (Event.EngineGetResolvedConnectString SessionName),
      (env.GetResolvedConnectString SessionName).getD Address)

/-- Source: `UMenu::OnJoinSession`. -/
def UMenu.OnJoinSession (env : Env) (w : World) (Result : EOnJoinSessionCompleteResult) : World :=
  let w := w.emit (Event.MenuOnJoinSession Result)
  if !w.menu.MultiplayerSessionsSubsystem then w
  else if EOnJoinSessionCompleteResult.Success = Result then
    let (w, Address) :=
      UMultiplayerSessionsSubsystem.GetResolvedConnectString env w NAME_GameSession ""
    if env.FirstLocalPlayerController then
      let w := w.emit (Event.AddOnScreenDebugMessage "ClientTravel")
      w.emit (Event.ClientTravel Address ETravelType.TRAVEL_Absolute)
    else w
  else
    { w with menu := { w.menu with JoinButton := w.menu.JoinButton.SetIsEnabled true } }

namespace UMultiplayerSessionsSubsystem

/-- Source: `MultiplayerOnJoinSessionCompleteDelegate.Broadcast(Result)`. -/
def BroadcastJoinSessionComplete (env : Env) (w : World) (Result : EOnJoinSessionCompleteResult) :
    World :=
  let w := w.emit (Event.BroadcastJoinSessionComplete Result)
  if w.subsystem.MultiplayerOnJoinSessionCompleteDelegate then UMenu.OnJoinSession env w Result
  else w

/-- Source: `UMultiplayerSessionsSubsystem::JoinSession`. -/
def JoinSession (env : Env) (w : World) (SessionResult : FOnlineSessionSearchResult) : World :=
  let w := w.emit (Event.CallJoinSession SessionResult)
  if !w.subsystem.OnlineSessionPtr then
    BroadcastJoinSessionComplete env w EOnJoinSessionCompleteResult.UnknownError
  else
    let (w, h) := w.AddDelegate_Handle ESessionOp.Join
    let w := { w with subsystem := { w.subsystem with OnJoinSessionCompleteDelegateHandle := h } }
    let w := w.emit (Event.EngineJoinSession env.PreferredUniqueNetId NAME_GameSession SessionResult)
    if !env.JoinSessionReturn then
      let w := w.ClearDelegate_Handle ESessionOp.Join w.subsystem.OnJoinSessionCompleteDelegateHandle
      BroadcastJoinSessionComplete env w EOnJoinSessionCompleteResult.UnknownError
    else w

end UMultiplayerSessionsSubsystem

namespace UMenu

/-- The `for` loop of `UMenu::OnFindSessions` over the results still to visit:
`some` of the world in which the function returned from inside the loop,
`none` when the loop ran to its end. -/
def OnFindSessions.loop (env : Env) (w : World) : List FOnlineSessionSearchResult → Option World
  | [] => none
  | Result :: rest =>
    let SettingsValue := Result.Session.SessionSettings.Get "MatchType" ""
    if eqIgnoreCase SettingsValue w.menu.MatchType then
      some (UMultiplayerSessionsSubsystem.JoinSession env w Result)
    else OnFindSessions.loop env w rest

/-- Source: `UMenu::OnFindSessions`. -/
def OnFindSessions (env : Env) (w : World) (SessionResults : List FOnlineSessionSearchResult)
    (bWasSuccessful : Bool) : World :=
  let w := w.emit (Event.MenuOnFindSessions SessionResults bWasSuccessful)
  if !w.menu.MultiplayerSessionsSubsystem then w
  else
    match OnFindSessions.loop env w SessionResults with
    | some w => w
    | none =>
      if !bWasSuccessful || SessionResults.length == 0 then
        { w with menu := { w.menu with JoinButton := w.menu.JoinButton.SetIsEnabled true } }
      else w

end UMenu

namespace UMultiplayerSessionsSubsystem

/-- The state the constructor leaves: `OnlineSessionPtr` is set when an online
subsystem is found, nothing else is. -/
def new (OnlineSubsystemFound : Bool) : UMultiplayerSessionsSubsystem :=
  { OnlineSessionPtr := OnlineSubsystemFound,
    LastSessionSettings := none, LastSessionSearch := none,
    OnCreateSessionCompleteDelegateHandle := 0, OnFindSessionsCompleteDelegateHandle := 0,
    OnJoinSessionCompleteDelegateHandle := 0, OnDestroySessionCompleteDelegateHandle := 0,
    OnStartSessionCompleteDelegateHandle := 0,
    bCreateSessionOnDestroy := false, LastNumPublicConnections := 0, LastMatchType := "",
    MultiplayerOnCreateSessionCompleteDelegate := false,
    MultiplayerOnFindSessionsCompleteDelegate := false,
    MultiplayerOnJoinSessionCompleteDelegate := false,
    MultiplayerOnDestroySessionCompleteDelegate := false,
    MultiplayerOnStartSessionCompleteDelegate := false }

/-- Source: `MultiplayerOnCreateSessionCompleteDelegate.Broadcast(b)`. -/
def BroadcastCreateSessionComplete (env : Env) (w : World) (bWasSuccessful : Bool) : World :=
  let w := w.emit (Event.BroadcastCreateSessionComplete bWasSuccessful)
  if w.subsystem.MultiplayerOnCreateSessionCompleteDelegate then
    UMenu.OnCreateSession env w bWasSuccessful
  else w

/-- Source: `MultiplayerOnFindSessionsCompleteDelegate.Broadcast(results, b)`. -/
def BroadcastFindSessionsComplete (env : Env) (w : World)
    (SessionResults : List FOnlineSessionSearchResult) (bWasSuccessful : Bool) : World :=
  let w := w.emit (Event.BroadcastFindSessionsComplete SessionResults bWasSuccessful)
  if w.subsystem.MultiplayerOnFindSessionsCompleteDelegate then
    UMenu.OnFindSessions env w SessionResults bWasSuccessful
  else w

/-- Source: `MultiplayerOnDestroySessionCompleteDelegate.Broadcast(b)`. -/
def BroadcastDestroySessionComplete (env : Env) (w : World) (bWasSuccessful : Bool) : World :=
  let w := w.emit (Event.BroadcastDestroySessionComplete bWasSuccessful)
  if w.subsystem.MultiplayerOnDestroySessionCompleteDelegate then
    UMenu.OnDestroySession env w bWasSuccessful
  else w

/-- Source: `UMultiplayerSessionsSubsystem::DestroySession`. -/
def DestroySession (env : Env) (w : World) : World :=
  let w := w.emit Event.CallDestroySession
  if !w.subsystem.OnlineSessionPtr then
    BroadcastDestroySessionComplete env w false
  else
    let (w, h) := w.AddDelegate_Handle ESessionOp.Destroy
    let w := { w with subsystem := { w.subsystem with OnDestroySessionCompleteDelegateHandle := h } }
    let w := w.emit (Event.EngineDestroySession NAME_GameSession)
    if !env.DestroySessionReturn then
      let w := w.ClearDelegate_Handle ESessionOp.Destroy
        w.subsystem.OnDestroySessionCompleteDelegateHandle
      BroadcastDestroySessionComplete env w false
    else w

/-- Source: `UMultiplayerSessionsSubsystem::CreateSession`. -/
def CreateSession (env : Env) (w : World) (NumPublicConnections : Int) (MatchType : FString) :
    World :=
  let w := w.emit (Event.CallCreateSession NumPublicConnections MatchType)
  if !w.subsystem.OnlineSessionPtr then w
  else
    let w := w.emit (Event.EngineGetNamedSession NAME_GameSession)
    if env.GetNamedSession NAME_GameSession then
      let w := { w with subsystem := { w.subsystem with
        bCreateSessionOnDestroy := true,
        LastNumPublicConnections := NumPublicConnections,
        LastMatchType := MatchType } }
      DestroySession env w
    else
      let (w, h) := w.AddDelegate_Handle ESessionOp.Create
      let w := { w with subsystem := { w.subsystem with OnCreateSessionCompleteDelegateHandle := h } }
      let Settings : FOnlineSessionSettings :=
        { FOnlineSessionSettings.new with
          bIsLANMatch := eqIgnoreCase env.SubsystemName "NULL",
          NumPublicConnections := NumPublicConnections,
          bAllowJoinInProgress := true,
          bAllowJoinViaPresence := true,
          bShouldAdvertise := true,
          bUsesPresence := true,
          bUseLobbiesIfAvailable := true }
      let Settings := Settings.Set "MatchType" MatchType
        EOnlineDataAdvertisementType.ViaOnlineServiceAndPing
      let Settings := { Settings with BuildUniqueId := 1 }
      let w := { w with subsystem := { w.subsystem with LastSessionSettings := some Settings } }
      let w := w.emit (Event.EngineCreateSession env.PreferredUniqueNetId NAME_GameSession Settings)
      if !env.CreateSessionReturn then
        let w := w.ClearDelegate_Handle ESessionOp.Create
          w.subsystem.OnCreateSessionCompleteDelegateHandle
        BroadcastCreateSessionComplete env w false
      else w

/-- Source: `UMultiplayerSessionsSubsystem::FindSessions`. -/
def FindSessions (env : Env) (w : World) (MaxSearchResults : Int) : World :=
  let w := w.emit (Event.CallFindSessions MaxSearchResults)
  if !w.subsystem.OnlineSessionPtr then w
  else
    let (w, h) := w.AddDelegate_Handle ESessionOp.Find
    let w := { w with subsystem := { w.subsystem with OnFindSessionsCompleteDelegateHandle := h } }
    let Search : FOnlineSessionSearch :=
      { FOnlineSessionSearch.new with
        MaxSearchResults := MaxSearchResults,
        bIsLanQuery := eqIgnoreCase env.SubsystemName "NULL",
        QuerySettings := [(SEARCH_LOBBIES, false)] }
    let w := { w with subsystem := { w.subsystem with LastSessionSearch := some Search } }
    let w := w.emit (Event.EngineFindSessions env.PreferredUniqueNetId Search)
    if !env.FindSessionsReturn then
      let w := w.ClearDelegate_Handle ESessionOp.Find
        w.subsystem.OnFindSessionsCompleteDelegateHandle
      BroadcastFindSessionsComplete env w [] false
    else w

/-- Source: `UMultiplayerSessionsSubsystem::StartSession` (empty body). -/
def StartSession (_env : Env) (w : World) : World :=
  w.emit Event.CallStartSession

/-- The guarded `Clear...Delegate_Handle` that opens each completion callback. -/
def ClearIfValid (w : World) (op : ESessionOp) (h : FDelegateHandle) : World :=
  if w.subsystem.OnlineSessionPtr then w.ClearDelegate_Handle op h else w

/-- Source: `UMultiplayerSessionsSubsystem::OnCreateSessionComplete`. -/
def OnCreateSessionComplete (env : Env) (w : World) (_SessionName : FName)
    (_bWasSuccessful : Bool) : World :=
  let w := ClearIfValid w ESessionOp.Create w.subsystem.OnCreateSessionCompleteDelegateHandle
  BroadcastCreateSessionComplete env w true

/-- Source: `UMultiplayerSessionsSubsystem::OnFindSessionsComplete`; `none` when
`LastSessionSearch` is null where it is dereferenced. -/
def OnFindSessionsComplete (env : Env) (w : World) (bWasSuccessful : Bool) : Option World :=
  let w := ClearIfValid w ESessionOp.Find w.subsystem.OnFindSessionsCompleteDelegateHandle
  match w.subsystem.LastSessionSearch with
  | none => none
  | some LastSessionSearch =>
    if LastSessionSearch.SearchResults.isEmpty then
      some (BroadcastFindSessionsComplete env w [] false)
    else
      some (BroadcastFindSessionsComplete env w LastSessionSearch.SearchResults bWasSuccessful)

/-- Source: `UMultiplayerSessionsSubsystem::OnJoinSessionComplete`. -/
def OnJoinSessionComplete (env : Env) (w : World) (_SessionName : FName)
    (Result : EOnJoinSessionCompleteResult) : World :=
  let w := ClearIfValid w ESessionOp.Join w.subsystem.OnJoinSessionCompleteDelegateHandle
  BroadcastJoinSessionComplete env w Result

/-- Source: `UMultiplayerSessionsSubsystem::OnDestroySessionComplete`. -/
def OnDestroySessionComplete (env : Env) (w : World) (_SessionName : FName)
    (bWasSuccessful : Bool) : World :=
  let w := ClearIfValid w ESessionOp.Destroy w.subsystem.OnDestroySessionCompleteDelegateHandle
  let w :=
    if bWasSuccessful && w.subsystem.bCreateSessionOnDestroy then
      let w := { w with subsystem := { w.subsystem with bCreateSessionOnDestroy := false } }
      CreateSession env w w.subsystem.LastNumPublicConnections w.subsystem.LastMatchType
    else w
  BroadcastDestroySessionComplete env w bWasSuccessful

/-- Source: `UMultiplayerSessionsSubsystem::OnStartSessionComplete` (empty body). -/
def OnStartSessionComplete (_env : Env) (w : World) (_SessionName : FName)
    (_bWasSuccessful : Bool) : World :=
  w

end UMultiplayerSessionsSubsystem

namespace UMenu

/-- Source: `UMenu::MenuSetup`. -/
def MenuSetup (env : Env) (w : World) (NumberOfPublicConnections : Int) (TypeOfMatch : FString)
    (LobbyPath : FString) : World :=
  let w := { w with menu := { w.menu with
    PathToLobby := LobbyPath ++ "?listen",
    NumPublicConnections := NumberOfPublicConnections,
    MatchType := TypeOfMatch } }
  let w := w.emit Event.AddToViewport
  let w := w.emit Event.SetVisibilityVisible
  let w := w.emit (Event.SetIsFocusable true)
  let w :=
    if env.MenuWorld && env.FirstPlayerController then
      (w.emit Event.SetInputModeUIOnly).emit (Event.SetShowMouseCursor true)
    else w
  let w :=
    if env.GameInstance then { w with menu := { w.menu with MultiplayerSessionsSubsystem := true } }
    else w
  if w.menu.MultiplayerSessionsSubsystem then
    { w with subsystem := { w.subsystem with
      MultiplayerOnCreateSessionCompleteDelegate := true,
      MultiplayerOnFindSessionsCompleteDelegate := true,
      MultiplayerOnJoinSessionCompleteDelegate := true,
      MultiplayerOnDestroySessionCompleteDelegate := true,
      MultiplayerOnStartSessionCompleteDelegate := true } }
  else w

/-- Source: `UMenu::HostButtonClicked`. -/
def HostButtonClicked (env : Env) (w : World) : World :=
  let w := { w with menu := { w.menu with HostButton := w.menu.HostButton.SetIsEnabled false } }
  if w.menu.MultiplayerSessionsSubsystem then
    UMultiplayerSessionsSubsystem.CreateSession env w w.menu.NumPublicConnections w.menu.MatchType
  else w

/-- Source: `UMenu::JoinButtonClicked`. -/
def JoinButtonClicked (env : Env) (w : World) : World :=
  let w := { w with menu := { w.menu with JoinButton := w.menu.JoinButton.SetIsEnabled false } }
  if w.menu.MultiplayerSessionsSubsystem then
    UMultiplayerSessionsSubsystem.FindSessions env w 10000
  else w

/-- Source: `UMenu::MenuTeardown`. -/
def MenuTeardown (env : Env) (w : World) : World :=
  let w := w.emit Event.RemoveFromParent
  if env.MenuWorld && env.FirstPlayerController then
    (w.emit Event.SetInputModeGameOnly).emit (Event.SetShowMouseCursor false)
  else w

end UMenu

/-! ## Reading the log -/

/-- The events appended to the log between two worlds. -/
def emitted (before after : World) : List Event :=
  after.log.drop before.log.length

/-- Flags broadcast on `MultiplayerOnCreateSessionCompleteDelegate`, in order. -/
def createBroadcasts (l : List Event) : List Bool :=
  l.filterMap (fun e => match e with
    | Event.BroadcastCreateSessionComplete b => some b
    | _ => none)

/-- Payloads broadcast on `MultiplayerOnFindSessionsCompleteDelegate`, in order. -/
def findBroadcasts (l : List Event) : List (List FOnlineSessionSearchResult × Bool) :=
  l.filterMap (fun e => match e with
    | Event.BroadcastFindSessionsComplete rs b => some (rs, b)
    | _ => none)

/-- Results broadcast on `MultiplayerOnJoinSessionCompleteDelegate`, in order. -/
def joinBroadcasts (l : List Event) : List EOnJoinSessionCompleteResult :=
  l.filterMap (fun e => match e with
    | Event.BroadcastJoinSessionComplete r => some r
    | _ => none)

/-- Flags broadcast on `MultiplayerOnDestroySessionCompleteDelegate`, in order. -/
def destroyBroadcasts (l : List Event) : List Bool :=
  l.filterMap (fun e => match e with
    | Event.BroadcastDestroySessionComplete b => some b
    | _ => none)

/-- Settings handed to the engine's `CreateSession`, one per call, in order. -/
def engineCreateSessionCalls (l : List Event) : List FOnlineSessionSettings :=
  l.filterMap (fun e => match e with
    | Event.EngineCreateSession _ _ s => some s
    | _ => none)

/-- Searches handed to the engine's `FindSessions`, one per call, in order. -/
def engineFindSessionsCalls (l : List Event) : List FOnlineSessionSearch :=
  l.filterMap (fun e => match e with
    | Event.EngineFindSessions _ s => some s
    | _ => none)

/-- Number of entries into `UMultiplayerSessionsSubsystem::DestroySession`. -/
def destroySessionCalls (l : List Event) : Nat :=
  l.count Event.CallDestroySession

/-- Arguments of the entries into `UMultiplayerSessionsSubsystem::JoinSession`. -/
def joinSessionCalls (l : List Event) : List FOnlineSessionSearchResult :=
  l.filterMap (fun e => match e with
    | Event.CallJoinSession r => some r
    | _ => none)

/-- URLs of the `ServerTravel` requests, in order. -/
def serverTravels (l : List Event) : List FString :=
  l.filterMap (fun e => match e with
    | Event.ServerTravel u => some u
    | _ => none)

/-- The `ClientTravel` requests, in order. -/
def clientTravels (l : List Event) : List (FString × ETravelType) :=
  l.filterMap (fun e => match e with
    | Event.ClientTravel u t => some (u, t)
    | _ => none)

/-- Is the event a broadcast on one of the subsystem's five delegates. -/
def Event.isBroadcast : Event → Bool
  | Event.BroadcastCreateSessionComplete _ => true
  | Event.BroadcastFindSessionsComplete _ _ => true
  | Event.BroadcastJoinSessionComplete _ => true
  | Event.BroadcastDestroySessionComplete _ => true
  | Event.BroadcastStartSessionComplete _ => true
  | _ => false

/-- The broadcasts on the subsystem's delegates, in order. -/
def broadcasts (l : List Event) : List Event :=
  l.filter Event.isBroadcast

/-- Is the event a registration or removal of a completion delegate with the
engine. -/
def Event.isHandleCall : Event → Bool
  | Event.AddDelegate_Handle _ _ => true
  | Event.ClearDelegate_Handle _ _ => true
  | _ => false

/-- The registrations and removals of completion delegates, in order. -/
def handleCalls (l : List Event) : List Event :=
  l.filter Event.isHandleCall

/-- Between `w` and `w'` the operation `op` was refused and reported: one handle
was registered (the engine's next one) and that same handle was removed again,
it is not on the engine's list afterwards, and the only broadcast is `failure`. -/
def RefusalReported (op : ESessionOp) (failure : Event) (w w' : World) : Prop :=
  handleCalls (emitted w w') =
    [Event.AddDelegate_Handle op w.session.NextHandle,
     Event.ClearDelegate_Handle op w.session.NextHandle] ∧
  w.session.NextHandle ∉ w'.session.Delegates op ∧
  broadcasts (emitted w w') = [failure]

/-- Between `w` and `w'` the operation `op` was started and is pending: one
handle was registered (the engine's next one), it is still on the engine's
list, and nothing was broadcast. -/
def StartedSilently (op : ESessionOp) (w w' : World) : Prop :=
  handleCalls (emitted w w') = [Event.AddDelegate_Handle op w.session.NextHandle] ∧
  w.session.NextHandle ∈ w'.session.Delegates op ∧
  broadcasts (emitted w w') = []

/-- The engine writing the results of a running search into the search object
it shares with the subsystem. -/
def World.EngineSetSearchResults (w : World) (rs : List FOnlineSessionSearchResult) : World :=
  { w with subsystem := { w.subsystem with
      LastSessionSearch := w.subsystem.LastSessionSearch.map
        (fun s => { s with SearchResults := rs }) } }

/-- Is the event a call into the engine's session interface. -/
def Event.isEngineCall : Event → Bool
  | Event.AddDelegate_Handle _ _ => true
  | Event.ClearDelegate_Handle _ _ => true
  | Event.EngineGetNamedSession _ => true
  | Event.EngineCreateSession _ _ _ => true
  | Event.EngineFindSessions _ _ => true
  | Event.EngineJoinSession _ _ _ => true
  | Event.EngineDestroySession _ => true
  | Event.EngineGetResolvedConnectString _ => true
  | _ => false

/-- The calls into the engine's session interface, in order. -/
def engineCalls (l : List Event) : List Event :=
  l.filter Event.isEngineCall

/-- Is the event an entry into one of the menu's completion callbacks. -/
def Event.isMenuCallback : Event → Bool
  | Event.MenuOnCreateSession _ => true
  | Event.MenuOnFindSessions _ _ => true
  | Event.MenuOnJoinSession _ => true
  | Event.MenuOnDestroySession _ => true
  | Event.MenuOnStartSession _ => true
  | _ => false

/-- The entries into the menu's completion callbacks, in order. -/
def menuCallbacks (l : List Event) : List Event :=
  l.filter Event.isMenuCallback

/-! ## Sample inputs -/

/-- An engine that accepts every operation, on the NULL backend, with no game
session yet. -/
def sampleEnv : Env :=
  { SubsystemName := "NULL", GetNamedSession := fun _ => false, PreferredUniqueNetId := 1,
    CreateSessionReturn := true, FindSessionsReturn := true, JoinSessionReturn := true,
    DestroySessionReturn := true, GetResolvedConnectString := fun _ => some "127.0.0.1:7777",
    MenuWorld := true, FirstPlayerController := true, GameInstance := true,
    FirstLocalPlayerController := true }

/-- The sample engine when a game session exists. -/
def sampleEnvExisting : Env :=
  { sampleEnv with GetNamedSession := fun _ => true }

/-- The sample engine when a game session exists and the engine refuses to
destroy it. -/
def sampleEnvExistingRefusing : Env :=
  { sampleEnv with GetNamedSession := fun _ => true, DestroySessionReturn := false }

/-- The sample engine when the backend's name is written in lower case. -/
def sampleEnvLowerCase : Env :=
  { sampleEnv with SubsystemName := "null" }

/-- The sample engine when it refuses every operation. -/
def sampleEnvRefusing : Env :=
  { sampleEnv with CreateSessionReturn := false, FindSessionsReturn := false,
                   JoinSessionReturn := false, DestroySessionReturn := false }

/-- A freshly constructed subsystem with a valid session interface and a menu
on which `MenuSetup` has not run yet. -/
def sampleWorld : World :=
  { subsystem := UMultiplayerSessionsSubsystem.new true,
    menu := { PathToLobby := "", NumPublicConnections := 0, MatchType := "",
              MultiplayerSessionsSubsystem := false,
              HostButton := { bIsEnabled := true }, JoinButton := { bIsEnabled := true } },
    session := { OnCreateSessionCompleteDelegates := [], OnFindSessionsCompleteDelegates := [],
                 OnJoinSessionCompleteDelegates := [], OnDestroySessionCompleteDelegates := [],
                 OnStartSessionCompleteDelegates := [], NextHandle := 1 },
    log := [] }

/-- The sample world after `MenuSetup(4, "FreeForAll", "/Game/Maps/Lobby")`. -/
def sampleWorldSetup : World :=
  UMenu.MenuSetup sampleEnv sampleWorld 4 "FreeForAll" "/Game/Maps/Lobby"

/-- The sample world after the Host button was clicked while a game session
existed: the create is deferred and a destroy is in flight. -/
def sampleWorldDeferred : World :=
  UMenu.HostButtonClicked sampleEnvExisting sampleWorldSetup

/-- A search result advertising the given match type. -/
def sampleResult (OwningUserName MatchType : FString) : FOnlineSessionSearchResult :=
  { Session := { OwningUserName := OwningUserName,
                 SessionSettings := FOnlineSessionSettings.new.Set "MatchType" MatchType
                   EOnlineDataAdvertisementType.ViaOnlineServiceAndPing },
    PingInMs := 20 }

/-- The sample world after the Join button was clicked and the engine found one
session of the menu's match type. -/
def sampleWorldFound : World :=
  (UMenu.JoinButtonClicked sampleEnv sampleWorldSetup).EngineSetSearchResults
    [sampleResult "host" "FreeForAll"]

/-- The sample world after the Join button was clicked: the button is disabled
and a search is running. -/
def sampleWorldSearching : World :=
  UMenu.JoinButtonClicked sampleEnv sampleWorldSetup

/-- The sample world when no online subsystem was found at construction (the
session interface is invalid), after `MenuSetup(4, "FreeForAll", "/Game/Maps/Lobby")`. -/
def sampleWorldOffline : World :=
  UMenu.MenuSetup sampleEnv
    { sampleWorld with subsystem := UMultiplayerSessionsSubsystem.new false }
    4 "FreeForAll" "/Game/Maps/Lobby"

/-! ## Theorems -/

open UMultiplayerSessionsSubsystem

/-- The engine's comparison holds between a string and itself. -/
theorem eqIgnoreCase_self (a : String) : eqIgnoreCase a a = true := by
  simp [eqIgnoreCase]

theorem emitted_append (w w' : World) (evs : List Event) (h : w'.log = w.log ++ evs) :
    emitted w w' = evs := by
  simp [emitted, h]

/-- C1: with a valid session interface and an existing game session,
`CreateSession n m` sets `bCreateSessionOnDestroy`, stores `n` and `m`, enters
`DestroySession` exactly once, and neither calls the engine's `CreateSession`
nor broadcasts on the create delegate. -/
theorem createSession_defers_to_destroy (env : Env) (w : World) (n : Int) (m : FString)
    (hvalid : w.subsystem.OnlineSessionPtr = true)
    (hexists : env.GetNamedSession NAME_GameSession = true) :
    (CreateSession env w n m).subsystem.bCreateSessionOnDestroy = true ∧
    (CreateSession env w n m).subsystem.LastNumPublicConnections = n ∧
    (CreateSession env w n m).subsystem.LastMatchType = m ∧
    destroySessionCalls (emitted w (CreateSession env w n m)) = 1 ∧
    engineCreateSessionCalls (emitted w (CreateSession env w n m)) = [] ∧
    createBroadcasts (emitted w (CreateSession env w n m)) = [] := by
  cases hd : env.DestroySessionReturn <;>
  cases hb : w.subsystem.MultiplayerOnDestroySessionCompleteDelegate <;>
  simp [CreateSession, DestroySession, BroadcastDestroySessionComplete, UMenu.OnDestroySession,
    World.emit, World.AddDelegate_Handle, World.ClearDelegate_Handle, emitted,
    destroySessionCalls, engineCreateSessionCalls, createBroadcasts, hvalid, hexists, hd, hb]

/-- The create-session step that a successful destroy completion performs when
a recreate is pending and no game session exists. -/
theorem onDestroySessionComplete_recreates (env : Env) (w : World) (SessionName : FName)
    (hvalid : w.subsystem.OnlineSessionPtr = true)
    (hpending : w.subsystem.bCreateSessionOnDestroy = true)
    (hgone : env.GetNamedSession NAME_GameSession = false) :
    (∃ s, engineCreateSessionCalls (emitted w (OnDestroySessionComplete env w SessionName true)) = [s] ∧
      s.NumPublicConnections = w.subsystem.LastNumPublicConnections ∧
      ∀ d, s.Get "MatchType" d = w.subsystem.LastMatchType) ∧
    (OnDestroySessionComplete env w SessionName true).subsystem.bCreateSessionOnDestroy = false := by
  cases hc : env.CreateSessionReturn <;>
  cases hb : w.subsystem.MultiplayerOnCreateSessionCompleteDelegate <;>
  cases hb2 : w.subsystem.MultiplayerOnDestroySessionCompleteDelegate <;>
  simp [OnDestroySessionComplete, ClearIfValid, CreateSession, BroadcastCreateSessionComplete,
    BroadcastDestroySessionComplete, UMenu.OnDestroySession, UMenu.OnCreateSession,
    World.emit, World.AddDelegate_Handle, World.ClearDelegate_Handle, emitted,
    engineCreateSessionCalls, FOnlineSessionSettings.Set, FOnlineSessionSettings.Get,
    eqIgnoreCase_self,
    FOnlineSessionSettings.new, UButton.SetIsEnabled, hvalid, hpending, hgone, hc, hb, hb2]

/-- The subsystem fields a deferred `CreateSession` leaves behind. -/
theorem createSession_deferred_fields (env : Env) (w : World) (n : Int) (m : FString)
    (hvalid : w.subsystem.OnlineSessionPtr = true)
    (hexists : env.GetNamedSession NAME_GameSession = true) :
    (CreateSession env w n m).subsystem.OnlineSessionPtr = true ∧
    (CreateSession env w n m).subsystem.bCreateSessionOnDestroy = true ∧
    (CreateSession env w n m).subsystem.LastNumPublicConnections = n ∧
    (CreateSession env w n m).subsystem.LastMatchType = m := by
  cases hd : env.DestroySessionReturn <;>
  cases hb : w.subsystem.MultiplayerOnDestroySessionCompleteDelegate <;>
  simp [CreateSession, DestroySession, BroadcastDestroySessionComplete, UMenu.OnDestroySession,
    World.emit, World.AddDelegate_Handle, World.ClearDelegate_Handle, hvalid, hexists, hd, hb]

/-- C2: after `CreateSession n m` was deferred (valid interface, a game session
existed), a successful destroy completion arriving when no game session exists
calls the engine's `CreateSession` exactly once, with settings whose
`NumPublicConnections` is `n` and whose `MatchType` setting is `m`, and leaves
`bCreateSessionOnDestroy` false. -/
theorem recreate_after_destroy (env₁ env₂ : Env) (w : World) (n : Int) (m : FString)
    (SessionName : FName)
    (hvalid : w.subsystem.OnlineSessionPtr = true)
    (hexists : env₁.GetNamedSession NAME_GameSession = true)
    (hgone : env₂.GetNamedSession NAME_GameSession = false) :
    (∃ s, engineCreateSessionCalls (emitted (CreateSession env₁ w n m)
        (OnDestroySessionComplete env₂ (CreateSession env₁ w n m) SessionName true)) = [s] ∧
      s.NumPublicConnections = n ∧ ∀ d, s.Get "MatchType" d = m) ∧
    (OnDestroySessionComplete env₂ (CreateSession env₁ w n m) SessionName
      true).subsystem.bCreateSessionOnDestroy = false := by
  obtain ⟨hv, hp, hn, hm⟩ := createSession_deferred_fields env₁ w n m hvalid hexists
  have h := onDestroySessionComplete_recreates env₂ (CreateSession env₁ w n m) SessionName hv hp hgone
  rw [hn, hm] at h
  exact h

/-- C3, evaluated on the code: whatever the engine reports, even failure,
`OnCreateSessionComplete` broadcasts `true` (once) on the create delegate. -/
theorem onCreateSessionComplete_broadcasts_true (env : Env) (w : World) (SessionName : FName)
    (bWasSuccessful : Bool) :
    createBroadcasts (emitted w (OnCreateSessionComplete env w SessionName bWasSuccessful))
      = [true] := by
  cases hv : w.subsystem.OnlineSessionPtr <;>
  cases hb : w.subsystem.MultiplayerOnCreateSessionCompleteDelegate <;>
  cases hw : env.MenuWorld <;>
  simp [OnCreateSessionComplete, ClearIfValid, BroadcastCreateSessionComplete,
    UMenu.OnCreateSession, World.emit, World.ClearDelegate_Handle, emitted, createBroadcasts,
    hv, hb, hw]

/-- The loop of `UMenu::OnFindSessions` joins the first result whose `MatchType`
reading equals the menu's `MatchType` under the engine's comparison, and runs
to its end when there is none. -/
theorem onFindSessions_loop_eq (env : Env) (w : World) (l : List FOnlineSessionSearchResult) :
    UMenu.OnFindSessions.loop env w l =
      (l.find? (fun r => eqIgnoreCase (r.Session.SessionSettings.Get "MatchType" "") w.menu.MatchType)).map
        (JoinSession env w) := by
  induction l with
  | nil => rfl
  | cons r rest ih =>
    by_cases h : (eqIgnoreCase (r.Session.SessionSettings.Get "MatchType" "") w.menu.MatchType) = true
    · simp [UMenu.OnFindSessions.loop, List.find?, h]
    · simp only [Bool.not_eq_true] at h
      simp [UMenu.OnFindSessions.loop, List.find?, h, ih]

@[simp] theorem World.emit_log (w : World) (e : Event) : (w.emit e).log = w.log ++ [e] := rfl

@[simp] theorem World.emit_subsystem (w : World) (e : Event) : (w.emit e).subsystem = w.subsystem :=
  rfl

@[simp] theorem World.emit_menu (w : World) (e : Event) : (w.emit e).menu = w.menu := rfl

@[simp] theorem World.emit_session (w : World) (e : Event) : (w.emit e).session = w.session := rfl

/-- What `JoinSession` appends to the log: one entry marker for itself and no
broadcast on the find delegate. -/
theorem joinSession_emits (env : Env) (w : World) (r : FOnlineSessionSearchResult) :
    ∃ evs, (JoinSession env w r).log = w.log ++ evs ∧
      findBroadcasts evs = [] ∧ joinSessionCalls evs = [r] := by
  refine ⟨emitted w (JoinSession env w r), ?_, ?_, ?_⟩ <;>
  cases hv : w.subsystem.OnlineSessionPtr <;>
  cases hj : env.JoinSessionReturn <;>
  cases hb : w.subsystem.MultiplayerOnJoinSessionCompleteDelegate <;>
  cases hs : w.menu.MultiplayerSessionsSubsystem <;>
  simp [JoinSession, BroadcastJoinSessionComplete, UMenu.OnJoinSession, World.emit,
    World.AddDelegate_Handle, World.ClearDelegate_Handle, emitted, findBroadcasts,
    joinSessionCalls, hv, hj, hb, hs]

/-- What `UMenu::OnFindSessions` appends to the log: no broadcast on the find
delegate, and one `JoinSession` entry for the first matching result, if any. -/
theorem onFindSessions_emits (env : Env) (w : World) (rs : List FOnlineSessionSearchResult)
    (b : Bool) :
    ∃ evs, (UMenu.OnFindSessions env w rs b).log = w.log ++ evs ∧
      findBroadcasts evs = [] ∧
      joinSessionCalls evs = if w.menu.MultiplayerSessionsSubsystem then
        (rs.find? (fun r => eqIgnoreCase (r.Session.SessionSettings.Get "MatchType" "") w.menu.MatchType)).toList
        else [] := by
  cases hs : w.menu.MultiplayerSessionsSubsystem
  · exact ⟨[Event.MenuOnFindSessions rs b], by simp [UMenu.OnFindSessions, hs],
      by simp [findBroadcasts], by simp [joinSessionCalls]⟩
  · cases hfind : rs.find?
      (fun r => eqIgnoreCase (r.Session.SessionSettings.Get "MatchType" "") w.menu.MatchType) with
    | none =>
      refine ⟨[Event.MenuOnFindSessions rs b], ?_, by simp [findBroadcasts],
        by simp [joinSessionCalls]⟩
      simp only [UMenu.OnFindSessions, World.emit_menu, hs, onFindSessions_loop_eq, hfind]
      split_ifs <;> simp
    | some r =>
      obtain ⟨evs, hlog, hf, hj⟩ :=
        joinSession_emits env (w.emit (Event.MenuOnFindSessions rs b)) r
      refine ⟨Event.MenuOnFindSessions rs b :: evs, ?_, ?_, ?_⟩
      · simp [UMenu.OnFindSessions, hs, onFindSessions_loop_eq, hfind, hlog]
      · simpa [findBroadcasts] using hf
      · simpa [joinSessionCalls] using hj

/-- What broadcasting on the find delegate appends to the log: exactly that one
broadcast on the find delegate. -/
theorem broadcastFindSessionsComplete_emits (env : Env) (w : World)
    (rs : List FOnlineSessionSearchResult) (b : Bool) :
    ∃ evs, (BroadcastFindSessionsComplete env w rs b).log = w.log ++ evs ∧
      findBroadcasts evs = [(rs, b)] := by
  cases hb : w.subsystem.MultiplayerOnFindSessionsCompleteDelegate
  · exact ⟨[Event.BroadcastFindSessionsComplete rs b],
      by simp [BroadcastFindSessionsComplete, hb], by simp [findBroadcasts]⟩
  · obtain ⟨evs, hlog, hf, _⟩ :=
      onFindSessions_emits env (w.emit (Event.BroadcastFindSessionsComplete rs b)) rs b
    refine ⟨Event.BroadcastFindSessionsComplete rs b :: evs, ?_, ?_⟩
    · simp [BroadcastFindSessionsComplete, hb, hlog]
    · simpa [findBroadcasts] using hf

/-- The guarded clear appends at most its own engine call. -/
theorem clearIfValid_emits (w : World) (op : ESessionOp) (h : FDelegateHandle) :
    (ClearIfValid w op h).log =
      w.log ++ (if w.subsystem.OnlineSessionPtr then [Event.ClearDelegate_Handle op h] else []) ∧
    (ClearIfValid w op h).subsystem = w.subsystem ∧ (ClearIfValid w op h).menu = w.menu := by
  cases hv : w.subsystem.OnlineSessionPtr <;> simp [ClearIfValid, World.ClearDelegate_Handle, hv]

/-- C4: with search results held in `LastSessionSearch`, `OnFindSessionsComplete`
returns and broadcasts exactly once on the find delegate: the held list,
unchanged, with `bWasSuccessful` when the list is non-empty, and the empty list
with `false` when it is empty. -/
theorem onFindSessionsComplete_rebroadcasts (env : Env) (w : World) (bWasSuccessful : Bool)
    (search : FOnlineSessionSearch)
    (hsearch : w.subsystem.LastSessionSearch = some search) :
    ∃ w', OnFindSessionsComplete env w bWasSuccessful = some w' ∧
      (search.SearchResults ≠ [] →
        findBroadcasts (emitted w w') = [(search.SearchResults, bWasSuccessful)]) ∧
      (search.SearchResults = [] → findBroadcasts (emitted w w') = [([], false)]) := by
  obtain ⟨hclog, hcsub, _⟩ :=
    clearIfValid_emits w ESessionOp.Find w.subsystem.OnFindSessionsCompleteDelegateHandle
  have key : ∀ rs b, findBroadcasts (emitted w (BroadcastFindSessionsComplete env
      (ClearIfValid w ESessionOp.Find w.subsystem.OnFindSessionsCompleteDelegateHandle) rs b))
      = [(rs, b)] := by
    intro rs b
    obtain ⟨evs, hlog, hf⟩ := broadcastFindSessionsComplete_emits env
      (ClearIfValid w ESessionOp.Find w.subsystem.OnFindSessionsCompleteDelegateHandle) rs b
    rw [hclog, List.append_assoc] at hlog
    rw [emitted_append w _ _ hlog]
    cases hv : w.subsystem.OnlineSessionPtr <;> simpa [findBroadcasts] using hf
  by_cases hres : search.SearchResults = []
  · refine ⟨_, ?_, ?_, fun _ => key [] false⟩
    · simp [OnFindSessionsComplete, hcsub, hsearch, hres]
    · intro h; exact absurd hres h
  · refine ⟨_, ?_, fun _ => key search.SearchResults bWasSuccessful, ?_⟩
    · simp [OnFindSessionsComplete, hcsub, hsearch, hres]
    · intro h; exact absurd h hres

/-- The destroy-delegate broadcasts of a successful destroy completion that finds
a recreate pending: the closing `true`, preceded by one `false` when the nested
`CreateSession` finds a game session and the engine refuses to destroy it. -/
theorem onDestroySessionComplete_pending_broadcasts (env : Env) (w : World) (SessionName : FName)
    (hpending : w.subsystem.bCreateSessionOnDestroy = true) :
    destroyBroadcasts (emitted w (OnDestroySessionComplete env w SessionName true)) =
      (if w.subsystem.OnlineSessionPtr && env.GetNamedSession NAME_GameSession
          && !env.DestroySessionReturn then [false] else []) ++ [true] := by
  cases hv : w.subsystem.OnlineSessionPtr <;>
  cases hx : env.GetNamedSession NAME_GameSession <;>
  cases hd : env.DestroySessionReturn <;>
  cases hc : env.CreateSessionReturn <;>
  cases hbd : w.subsystem.MultiplayerOnDestroySessionCompleteDelegate <;>
  cases hbc : w.subsystem.MultiplayerOnCreateSessionCompleteDelegate <;>
  simp [OnDestroySessionComplete, ClearIfValid, CreateSession, DestroySession,
    BroadcastDestroySessionComplete, BroadcastCreateSessionComplete, UMenu.OnDestroySession,
    UMenu.OnCreateSession, World.emit, World.AddDelegate_Handle, World.ClearDelegate_Handle,
    emitted, destroyBroadcasts, hpending, hv, hx, hd, hc, hbd, hbc]

/-- The destroy-delegate broadcasts of a destroy completion that recreates
nothing: the engine's flag, once. -/
theorem onDestroySessionComplete_plain_broadcasts (env : Env) (w : World) (SessionName : FName)
    (b : Bool) (hplain : (b && w.subsystem.bCreateSessionOnDestroy) = false) :
    destroyBroadcasts (emitted w (OnDestroySessionComplete env w SessionName b)) = [b] := by
  cases hv : w.subsystem.OnlineSessionPtr <;>
  cases hbd : w.subsystem.MultiplayerOnDestroySessionCompleteDelegate <;>
  simp [OnDestroySessionComplete, ClearIfValid, BroadcastDestroySessionComplete,
    UMenu.OnDestroySession, World.emit, World.ClearDelegate_Handle, emitted, destroyBroadcasts,
    hplain, hv, hbd]

/-- C5, as the code has it: `OnJoinSessionComplete` broadcasts exactly the
engine's result, once, on the join delegate.  `OnDestroySessionComplete` ends
with a broadcast of exactly `bWasSuccessful` on the destroy delegate; that is
its only broadcast there unless the destroy succeeded, a recreate was pending,
the interface is valid, a game session still exists and the engine refuses the
nested destroy, in which case one `false` is broadcast before it. -/
theorem join_and_destroy_results_pass_through (env : Env) (w : World) (SessionName : FName)
    (Result : EOnJoinSessionCompleteResult) (bWasSuccessful : Bool) :
    joinBroadcasts (emitted w (OnJoinSessionComplete env w SessionName Result)) = [Result] ∧
    destroyBroadcasts (emitted w (OnDestroySessionComplete env w SessionName bWasSuccessful)) =
      (if bWasSuccessful && w.subsystem.bCreateSessionOnDestroy && w.subsystem.OnlineSessionPtr
          && env.GetNamedSession NAME_GameSession && !env.DestroySessionReturn
        then [false] else []) ++ [bWasSuccessful] := by
  constructor
  · cases hv : w.subsystem.OnlineSessionPtr <;>
    cases hb : w.subsystem.MultiplayerOnJoinSessionCompleteDelegate <;>
    cases hs : w.menu.MultiplayerSessionsSubsystem <;>
    cases hp : env.FirstLocalPlayerController <;>
    cases Result <;>
    simp [OnJoinSessionComplete, ClearIfValid, BroadcastJoinSessionComplete, UMenu.OnJoinSession,
      GetResolvedConnectString, World.emit, World.ClearDelegate_Handle, emitted, joinBroadcasts,
      hv, hb, hs, hp]
  · by_cases hre : (bWasSuccessful && w.subsystem.bCreateSessionOnDestroy) = true
    · simp only [Bool.and_eq_true] at hre
      obtain ⟨hb, hp⟩ := hre
      subst hb
      rw [onDestroySessionComplete_pending_broadcasts env w SessionName hp]
      simp [hp]
    · simp only [Bool.not_eq_true] at hre
      rw [onDestroySessionComplete_plain_broadcasts env w SessionName bWasSuccessful hre]
      have : (bWasSuccessful && w.subsystem.bCreateSessionOnDestroy
          && w.subsystem.OnlineSessionPtr && env.GetNamedSession NAME_GameSession
          && !env.DestroySessionReturn) = false := by simp [hre]
      simp [this]

/-- C5 fails as stated: a recreate is pending, the engine reports a destroy as
successful while a game session still exists, and refuses the nested destroy;
the destroy delegate then receives `false` and `true`, not `true` alone. -/
theorem destroy_result_broadcast_twice :
    destroyBroadcasts (emitted sampleWorldDeferred
        (OnDestroySessionComplete sampleEnvExistingRefusing sampleWorldDeferred
          NAME_GameSession true)) = [false, true] ∧
    destroyBroadcasts (emitted sampleWorldDeferred
        (OnDestroySessionComplete sampleEnvExistingRefusing sampleWorldDeferred
          NAME_GameSession true)) ≠ [true] := by
  decide

/-- Witness for C1 on the sample world with an existing game session. -/
theorem createSession_defers_to_destroy_witness :
    sampleWorld.subsystem.OnlineSessionPtr = true ∧
    sampleEnvExisting.GetNamedSession NAME_GameSession = true ∧
    (CreateSession sampleEnvExisting sampleWorld 4 "FreeForAll").subsystem.bCreateSessionOnDestroy
      = true ∧
    destroySessionCalls (emitted sampleWorld
      (CreateSession sampleEnvExisting sampleWorld 4 "FreeForAll")) = 1 :=
  have h := createSession_defers_to_destroy sampleEnvExisting sampleWorld 4 "FreeForAll" rfl rfl
  ⟨rfl, rfl, h.1, h.2.2.2.1⟩

/-- Witness for C2 on the sample world: deferred with a session present, then a
successful destroy completion with the session gone. -/
theorem recreate_after_destroy_witness :
    (∃ s, engineCreateSessionCalls (emitted (CreateSession sampleEnvExisting sampleWorld 4 "FreeForAll")
        (OnDestroySessionComplete sampleEnv (CreateSession sampleEnvExisting sampleWorld 4 "FreeForAll")
          NAME_GameSession true)) = [s] ∧
      s.NumPublicConnections = 4 ∧ ∀ d, s.Get "MatchType" d = "FreeForAll") ∧
    (OnDestroySessionComplete sampleEnv (CreateSession sampleEnvExisting sampleWorld 4 "FreeForAll")
      NAME_GameSession true).subsystem.bCreateSessionOnDestroy = false :=
  recreate_after_destroy sampleEnvExisting sampleEnv sampleWorld 4 "FreeForAll" NAME_GameSession
    rfl rfl rfl

/-- Witness for C4 on the sample world holding one search result. -/
theorem onFindSessionsComplete_rebroadcasts_witness :
    ∃ w', OnFindSessionsComplete sampleEnv sampleWorldFound true = some w' ∧
      findBroadcasts (emitted sampleWorldFound w') = [([sampleResult "host" "FreeForAll"], true)] :=
  have h := onFindSessionsComplete_rebroadcasts sampleEnv sampleWorldFound true
    { MaxSearchResults := 10000, bIsLanQuery := true, QuerySettings := [(SEARCH_LOBBIES, false)],
      SearchResults := [sampleResult "host" "FreeForAll"] } (by decide)
  h.elim fun w' hw' => ⟨w', hw'.1, hw'.2.1 (by decide)⟩

/-- C6: with a valid session interface, each of `CreateSession` (no game session
existing), `FindSessions`, `JoinSession` and `DestroySession` reports an engine
call that returns false (the handle registered in the call is removed again and
the operation's failure value is the one broadcast), and broadcasts nothing and
leaves the handle registered when the engine call returns true. -/
theorem engine_refusal_reported (env : Env) (w : World) (n : Int) (m : FString) (k : Int)
    (r : FOnlineSessionSearchResult)
    (hvalid : w.subsystem.OnlineSessionPtr = true) :
    (env.GetNamedSession NAME_GameSession = false →
      (env.CreateSessionReturn = false →
        RefusalReported ESessionOp.Create (Event.BroadcastCreateSessionComplete false)
          w (CreateSession env w n m)) ∧
      (env.CreateSessionReturn = true →
        StartedSilently ESessionOp.Create w (CreateSession env w n m))) ∧
    ((env.FindSessionsReturn = false →
        RefusalReported ESessionOp.Find (Event.BroadcastFindSessionsComplete [] false)
          w (FindSessions env w k)) ∧
      (env.FindSessionsReturn = true →
        StartedSilently ESessionOp.Find w (FindSessions env w k))) ∧
    ((env.JoinSessionReturn = false →
        RefusalReported ESessionOp.Join
          (Event.BroadcastJoinSessionComplete EOnJoinSessionCompleteResult.UnknownError)
          w (JoinSession env w r)) ∧
      (env.JoinSessionReturn = true →
        StartedSilently ESessionOp.Join w (JoinSession env w r))) ∧
    ((env.DestroySessionReturn = false →
        RefusalReported ESessionOp.Destroy (Event.BroadcastDestroySessionComplete false)
          w (DestroySession env w)) ∧
      (env.DestroySessionReturn = true →
        StartedSilently ESessionOp.Destroy w (DestroySession env w))) := by
  refine ⟨fun hx => ⟨fun hr => ?_, fun hr => ?_⟩, ⟨fun hr => ?_, fun hr => ?_⟩,
    ⟨fun hr => ?_, fun hr => ?_⟩, ⟨fun hr => ?_, fun hr => ?_⟩⟩
  · cases hb : w.subsystem.MultiplayerOnCreateSessionCompleteDelegate <;>
    simp [RefusalReported, CreateSession, BroadcastCreateSessionComplete, UMenu.OnCreateSession,
      World.emit, World.AddDelegate_Handle, World.ClearDelegate_Handle, emitted, handleCalls,
      broadcasts, Event.isBroadcast, Event.isHandleCall, OnlineSessionInterface.Delegates,
      OnlineSessionInterface.setDelegates, hvalid, hx, hr, hb]
  · simp [StartedSilently, CreateSession, World.emit, World.AddDelegate_Handle, emitted,
      handleCalls, broadcasts, Event.isBroadcast, Event.isHandleCall,
      OnlineSessionInterface.Delegates, OnlineSessionInterface.setDelegates, hvalid, hx, hr]
  · cases hb : w.subsystem.MultiplayerOnFindSessionsCompleteDelegate <;>
    cases hs : w.menu.MultiplayerSessionsSubsystem <;>
    simp [RefusalReported, FindSessions, BroadcastFindSessionsComplete, UMenu.OnFindSessions,
      UMenu.OnFindSessions.loop, World.emit, World.AddDelegate_Handle,
      World.ClearDelegate_Handle, emitted, handleCalls, broadcasts, Event.isBroadcast,
      Event.isHandleCall, OnlineSessionInterface.Delegates, OnlineSessionInterface.setDelegates,
      hvalid, hr, hb, hs]
  · simp [StartedSilently, FindSessions, World.emit, World.AddDelegate_Handle, emitted,
      handleCalls, broadcasts, Event.isBroadcast, Event.isHandleCall,
      OnlineSessionInterface.Delegates, OnlineSessionInterface.setDelegates, hvalid, hr]
  · cases hb : w.subsystem.MultiplayerOnJoinSessionCompleteDelegate <;>
    cases hs : w.menu.MultiplayerSessionsSubsystem <;>
    simp [RefusalReported, JoinSession, BroadcastJoinSessionComplete, UMenu.OnJoinSession,
      World.emit, World.AddDelegate_Handle, World.ClearDelegate_Handle, emitted, handleCalls,
      broadcasts, Event.isBroadcast, Event.isHandleCall, OnlineSessionInterface.Delegates,
      OnlineSessionInterface.setDelegates, hvalid, hr, hb, hs]
  · simp [StartedSilently, JoinSession, World.emit, World.AddDelegate_Handle, emitted,
      handleCalls, broadcasts, Event.isBroadcast, Event.isHandleCall,
      OnlineSessionInterface.Delegates, OnlineSessionInterface.setDelegates, hvalid, hr]
  · cases hb : w.subsystem.MultiplayerOnDestroySessionCompleteDelegate <;>
    simp [RefusalReported, DestroySession, BroadcastDestroySessionComplete,
      UMenu.OnDestroySession, World.emit, World.AddDelegate_Handle, World.ClearDelegate_Handle,
      emitted, handleCalls, broadcasts, Event.isBroadcast, Event.isHandleCall,
      OnlineSessionInterface.Delegates, OnlineSessionInterface.setDelegates, hvalid, hr, hb]
  · simp [StartedSilently, DestroySession, World.emit, World.AddDelegate_Handle, emitted,
      handleCalls, broadcasts, Event.isBroadcast, Event.isHandleCall,
      OnlineSessionInterface.Delegates, OnlineSessionInterface.setDelegates, hvalid, hr]

/-- Witness for C6: the sample engine refusing a search, and the sample engine
accepting one. -/
theorem engine_refusal_reported_witness :
    RefusalReported ESessionOp.Find (Event.BroadcastFindSessionsComplete [] false)
      sampleWorldSetup (FindSessions sampleEnvRefusing sampleWorldSetup 10000) ∧
    StartedSilently ESessionOp.Find sampleWorldSetup (FindSessions sampleEnv sampleWorldSetup 10000) :=
  ⟨(engine_refusal_reported sampleEnvRefusing sampleWorldSetup 4 "FreeForAll" 10000
      (sampleResult "host" "FreeForAll") rfl).2.1.1 rfl,
   (engine_refusal_reported sampleEnv sampleWorldSetup 4 "FreeForAll" 10000
      (sampleResult "host" "FreeForAll") rfl).2.1.2 rfl⟩

/-- C7 fails as stated: the backend is named `null`, which is not the string
`NULL`, yet the settings handed to the engine have `bIsLANMatch` true and the
search handed to the engine has `bIsLanQuery` true.  Also, with an invalid
session interface and no game session, nothing is handed to the engine. -/
theorem lan_chosen_for_lower_case_backend :
    sampleEnvLowerCase.SubsystemName ≠ "NULL" ∧
    (engineCreateSessionCalls (emitted sampleWorld
      (CreateSession sampleEnvLowerCase sampleWorld 4 "FreeForAll"))).map
        (fun s => s.bIsLANMatch) = [true] ∧
    (engineFindSessionsCalls (emitted sampleWorld
      (FindSessions sampleEnvLowerCase sampleWorld 10000))).map
        (fun q => q.bIsLanQuery) = [true] ∧
    sampleWorldOffline.subsystem.OnlineSessionPtr = false ∧
    sampleEnv.GetNamedSession NAME_GameSession = false ∧
    engineCreateSessionCalls (emitted sampleWorldOffline
      (CreateSession sampleEnv sampleWorldOffline 4 "FreeForAll")) = [] ∧
    engineFindSessionsCalls (emitted sampleWorldOffline
      (FindSessions sampleEnv sampleWorldOffline 10000)) = [] := by
  decide

/-- C7, as the code has it: with a valid session interface, `CreateSession n m` with
no game session existing hands the engine exactly one settings object, with
`NumPublicConnections = n`, `MatchType` setting `m` and `bIsLANMatch` true exactly
when the backend name equals `NULL` under the engine's comparison, which ignores
letter case; `FindSessions k` hands the engine exactly one search, with
`MaxSearchResults = k` and `bIsLanQuery` true exactly when the backend name
equals `NULL` under that comparison. -/
theorem parameters_passed_to_engine (env : Env) (w : World) (n : Int) (m : FString) (k : Int)
    (hvalid : w.subsystem.OnlineSessionPtr = true) :
    (env.GetNamedSession NAME_GameSession = false →
      ∃ s, engineCreateSessionCalls (emitted w (CreateSession env w n m)) = [s] ∧
        s.NumPublicConnections = n ∧ (∀ d, s.Get "MatchType" d = m) ∧
        (s.bIsLANMatch = true ↔ eqIgnoreCase env.SubsystemName "NULL" = true)) ∧
    (∃ q, engineFindSessionsCalls (emitted w (FindSessions env w k)) = [q] ∧
        q.MaxSearchResults = k ∧ (q.bIsLanQuery = true ↔ eqIgnoreCase env.SubsystemName "NULL" = true)) := by
  constructor
  · intro hx
    cases hc : env.CreateSessionReturn <;>
    cases hb : w.subsystem.MultiplayerOnCreateSessionCompleteDelegate <;>
    simp [CreateSession, BroadcastCreateSessionComplete, UMenu.OnCreateSession, World.emit,
      World.AddDelegate_Handle, World.ClearDelegate_Handle, emitted, engineCreateSessionCalls,
      FOnlineSessionSettings.Set, FOnlineSessionSettings.Get, FOnlineSessionSettings.new,
      eqIgnoreCase_self,
      hvalid, hx, hc, hb]
  · cases hf : env.FindSessionsReturn <;>
    cases hb : w.subsystem.MultiplayerOnFindSessionsCompleteDelegate <;>
    cases hs : w.menu.MultiplayerSessionsSubsystem <;>
    simp [FindSessions, BroadcastFindSessionsComplete, UMenu.OnFindSessions,
      UMenu.OnFindSessions.loop, World.emit, World.AddDelegate_Handle,
      World.ClearDelegate_Handle, emitted, engineFindSessionsCalls, FOnlineSessionSearch.new,
      hvalid, hf, hb, hs]

/-- Witness for C7 on the sample world and the NULL backend. -/
theorem parameters_passed_to_engine_witness :
    (∃ s, engineCreateSessionCalls (emitted sampleWorld
        (CreateSession sampleEnv sampleWorld 4 "FreeForAll")) = [s] ∧
      s.NumPublicConnections = 4 ∧ (∀ d, s.Get "MatchType" d = "FreeForAll") ∧
      (s.bIsLANMatch = true ↔ eqIgnoreCase sampleEnv.SubsystemName "NULL" = true)) ∧
    (∃ q, engineFindSessionsCalls (emitted sampleWorld (FindSessions sampleEnv sampleWorld 10000))
        = [q] ∧
      q.MaxSearchResults = 10000 ∧ (q.bIsLanQuery = true ↔ eqIgnoreCase sampleEnv.SubsystemName "NULL" = true)) :=
  ⟨(parameters_passed_to_engine sampleEnv sampleWorld 4 "FreeForAll" 10000 rfl).1 rfl,
   (parameters_passed_to_engine sampleEnv sampleWorld 4 "FreeForAll" 10000 rfl).2⟩

/-- C8: `MenuSetup` stores the lobby path followed by `?listen`; with that path
stored and a world available, `OnCreateSession true` requests `ServerTravel` to
exactly that string and leaves the Host button as it was; `OnCreateSession false`
requests no travel and enables the Host button. -/
theorem hosting_travels_to_lobby (env₀ env : Env) (w₀ w : World) (n : Int) (t p : FString) :
    (UMenu.MenuSetup env₀ w₀ n t p).menu.PathToLobby = p ++ "?listen" ∧
    (w.menu.PathToLobby = p ++ "?listen" → env.MenuWorld = true →
      serverTravels (emitted w (UMenu.OnCreateSession env w true)) = [p ++ "?listen"] ∧
      (UMenu.OnCreateSession env w true).menu.HostButton = w.menu.HostButton) ∧
    (serverTravels (emitted w (UMenu.OnCreateSession env w false)) = [] ∧
      (UMenu.OnCreateSession env w false).menu.HostButton.bIsEnabled = true) := by
  refine ⟨?_, ?_, ?_⟩
  · cases hw : env₀.MenuWorld <;> cases hp : env₀.FirstPlayerController <;>
    cases hg : env₀.GameInstance <;> cases hs : w₀.menu.MultiplayerSessionsSubsystem <;>
    simp [UMenu.MenuSetup, World.emit, hw, hp, hg, hs]
  · intro hpath hworld
    simp [UMenu.OnCreateSession, World.emit, emitted, serverTravels, hpath, hworld]
  · simp [UMenu.OnCreateSession, World.emit, emitted, serverTravels, UButton.SetIsEnabled]

/-- Witness for C8 on the sample world after `MenuSetup`. -/
theorem hosting_travels_to_lobby_witness :
    serverTravels (emitted sampleWorldSetup (UMenu.OnCreateSession sampleEnv sampleWorldSetup true))
      = ["/Game/Maps/Lobby" ++ "?listen"] ∧
    (UMenu.OnCreateSession sampleEnv sampleWorldSetup true).menu.HostButton
      = sampleWorldSetup.menu.HostButton :=
  (hosting_travels_to_lobby sampleEnv sampleEnv sampleWorld sampleWorldSetup 4 "FreeForAll"
    "/Game/Maps/Lobby").2.1 (by decide) rfl

/-- The Join button after `JoinSession`: enabled by the menu's `OnJoinSession`
callback when the join fails inside the call (invalid interface or engine
refusal) and the menu is bound, untouched otherwise. -/
theorem joinSession_joinButton (env : Env) (w : World) (r : FOnlineSessionSearchResult)
    (hs : w.menu.MultiplayerSessionsSubsystem = true) :
    (JoinSession env w r).menu.JoinButton =
      if (!w.subsystem.OnlineSessionPtr || !env.JoinSessionReturn)
          && w.subsystem.MultiplayerOnJoinSessionCompleteDelegate
        then { bIsEnabled := true } else w.menu.JoinButton := by
  cases hv : w.subsystem.OnlineSessionPtr <;>
  cases hj : env.JoinSessionReturn <;>
  cases hb : w.subsystem.MultiplayerOnJoinSessionCompleteDelegate <;>
  simp [JoinSession, BroadcastJoinSessionComplete, UMenu.OnJoinSession, World.emit,
    World.AddDelegate_Handle, World.ClearDelegate_Handle, UButton.SetIsEnabled, hv, hj, hb, hs]

/-- C9 fails as stated: the menu is bound to the subsystem, the Join button is
disabled, the only result matches and the engine refuses the join; the result
is joined and the Join button is enabled when `OnFindSessions` returns.  Also,
a result whose match type is `freeforall`, a string other than the menu's
`FreeForAll`, is joined. -/
theorem onFindSessions_join_refused_enables_button :
    joinSessionCalls (emitted sampleWorldSearching
        (UMenu.OnFindSessions sampleEnvRefusing sampleWorldSearching
          [sampleResult "host" "FreeForAll"] true)) = [sampleResult "host" "FreeForAll"] ∧
    sampleWorldSearching.menu.MultiplayerSessionsSubsystem = true ∧
    sampleWorldSearching.menu.JoinButton = { bIsEnabled := false } ∧
    (UMenu.OnFindSessions sampleEnvRefusing sampleWorldSearching
      [sampleResult "host" "FreeForAll"] true).menu.JoinButton = { bIsEnabled := true } ∧
    sampleWorldSearching.menu.MatchType = "FreeForAll" ∧
    (sampleResult "host" "freeforall").Session.SessionSettings.Get "MatchType" ""
      ≠ sampleWorldSearching.menu.MatchType ∧
    joinSessionCalls (emitted sampleWorldSearching
        (UMenu.OnFindSessions sampleEnv sampleWorldSearching
          [sampleResult "host" "freeforall"] true)) = [sampleResult "host" "freeforall"] := by
  decide

/-- C9, as the code has it: `MenuSetup` stores the match type; with a subsystem
present, `OnFindSessions` enters `JoinSession` at most once, and it does so
exactly when some result's `MatchType` reading (the setting's value, empty when
the result has none) equals the menu's match type under the engine's
comparison, which ignores letter case, the result joined being the first such
in list order.  On that path the Join button is as it was when the
engine accepts the join (or the menu is not bound to the join delegate), and is
enabled by the menu's `OnJoinSession` callback when the join fails inside the
call. -/
theorem discovery_joins_first_match (env₀ env : Env) (w₀ w : World) (n : Int) (t p : FString)
    (rs : List FOnlineSessionSearchResult) (b : Bool)
    (hs : w.menu.MultiplayerSessionsSubsystem = true) :
    (UMenu.MenuSetup env₀ w₀ n t p).menu.MatchType = t ∧
    (joinSessionCalls (emitted w (UMenu.OnFindSessions env w rs b))).length ≤ 1 ∧
    (joinSessionCalls (emitted w (UMenu.OnFindSessions env w rs b)) ≠ [] ↔
      ∃ r ∈ rs, eqIgnoreCase (r.Session.SessionSettings.Get "MatchType" "") w.menu.MatchType = true) ∧
    (∀ r, rs.find? (fun r => eqIgnoreCase (r.Session.SessionSettings.Get "MatchType" "") w.menu.MatchType)
        = some r →
      joinSessionCalls (emitted w (UMenu.OnFindSessions env w rs b)) = [r] ∧
      (UMenu.OnFindSessions env w rs b).menu.JoinButton =
        if (!w.subsystem.OnlineSessionPtr || !env.JoinSessionReturn)
            && w.subsystem.MultiplayerOnJoinSessionCompleteDelegate
          then { bIsEnabled := true } else w.menu.JoinButton) := by
  obtain ⟨evs, hlog, _, hj⟩ := onFindSessions_emits env w rs b
  rw [emitted_append w _ evs hlog, hj]
  simp only [hs, if_true]
  refine ⟨?_, ?_, ?_, ?_⟩
  · cases hw : env₀.MenuWorld <;> cases hp : env₀.FirstPlayerController <;>
    cases hg : env₀.GameInstance <;> cases hs₀ : w₀.menu.MultiplayerSessionsSubsystem <;>
    simp [UMenu.MenuSetup, World.emit, hw, hp, hg, hs₀]
  · cases rs.find? (fun r => eqIgnoreCase (r.Session.SessionSettings.Get "MatchType" "") w.menu.MatchType) <;>
    simp
  · cases hfind : rs.find?
      (fun r => eqIgnoreCase (r.Session.SessionSettings.Get "MatchType" "") w.menu.MatchType) with
    | none =>
      simp only [Option.toList, ne_eq, not_true_eq_false, false_iff, not_exists, not_and]
      intro r hr
      have := List.find?_eq_none.mp hfind r hr
      simpa using this
    | some r =>
      simp only [Option.toList, ne_eq, List.cons_ne_nil, not_false_eq_true, true_iff]
      exact ⟨r, List.mem_of_find?_eq_some hfind, by simpa using List.find?_some hfind⟩
  · intro r hfind
    refine ⟨by simp [hfind], ?_⟩
    have hb := joinSession_joinButton env (w.emit (Event.MenuOnFindSessions rs b)) r
      (by simpa using hs)
    simpa [UMenu.OnFindSessions, hs, onFindSessions_loop_eq, hfind] using hb

/-- Witness for C9 on the sample world, the engine accepting the join: the first
result is of another match type, the second differs from the menu's match type
in letter case only and is the one joined, the third is not reached. -/
theorem discovery_joins_first_match_witness :
    joinSessionCalls (emitted sampleWorldSearching
        (UMenu.OnFindSessions sampleEnv sampleWorldSearching
          [sampleResult "other" "Teams", sampleResult "host" "freeforall",
           sampleResult "late" "FreeForAll"] true))
      = [sampleResult "host" "freeforall"] :=
  ((discovery_joins_first_match sampleEnv sampleEnv sampleWorld sampleWorldSearching 4 "FreeForAll"
    "/Game/Maps/Lobby"
    [sampleResult "other" "Teams", sampleResult "host" "freeforall",
     sampleResult "late" "FreeForAll"] true
    (by decide)).2.2.2 (sampleResult "host" "freeforall") (by decide)).1

/-- C10: with a subsystem and a local player controller present,
`OnJoinSession Success` requests one absolute `ClientTravel` to the address the
subsystem resolves for the game session and leaves the Join button as it was;
for any other result it requests no travel and enables the Join button. -/
theorem joining_travels_to_host (env : Env) (w : World) (Result : EOnJoinSessionCompleteResult)
    (hs : w.menu.MultiplayerSessionsSubsystem = true)
    (hpc : env.FirstLocalPlayerController = true) :
    (Result = EOnJoinSessionCompleteResult.Success →
      clientTravels (emitted w (UMenu.OnJoinSession env w Result)) =
        [((GetResolvedConnectString env w NAME_GameSession "").2, ETravelType.TRAVEL_Absolute)] ∧
      (UMenu.OnJoinSession env w Result).menu.JoinButton = w.menu.JoinButton) ∧
    (Result ≠ EOnJoinSessionCompleteResult.Success →
      clientTravels (emitted w (UMenu.OnJoinSession env w Result)) = [] ∧
      (UMenu.OnJoinSession env w Result).menu.JoinButton.bIsEnabled = true) := by
  constructor
  · intro hr
    subst hr
    cases hv : w.subsystem.OnlineSessionPtr <;>
    simp [UMenu.OnJoinSession, GetResolvedConnectString, World.emit, emitted, clientTravels,
      hs, hpc, hv]
  · intro hr
    have hr' : ¬ EOnJoinSessionCompleteResult.Success = Result := fun h => hr h.symm
    simp [UMenu.OnJoinSession, World.emit, emitted, clientTravels, UButton.SetIsEnabled, hs, hr']

/-- Witness for C10 on the sample world: a successful join travels to the
address the sample engine resolves. -/
theorem joining_travels_to_host_witness :
    clientTravels (emitted sampleWorldSearching
        (UMenu.OnJoinSession sampleEnv sampleWorldSearching EOnJoinSessionCompleteResult.Success))
      = [((GetResolvedConnectString sampleEnv sampleWorldSearching NAME_GameSession "").2,
          ETravelType.TRAVEL_Absolute)] ∧
    (GetResolvedConnectString sampleEnv sampleWorldSearching NAME_GameSession "").2
      = "127.0.0.1:7777" :=
  ⟨((joining_travels_to_host sampleEnv sampleWorldSearching EOnJoinSessionCompleteResult.Success
      (by decide) rfl).1 rfl).1, by decide⟩

/-- C11 fails as stated: on the sample world, whose session interface is valid,
`StartSession` makes no engine call at all, and `OnStartSessionComplete` with
`true` broadcasts nothing, so no `true` reaches the start delegate. -/
theorem startSession_does_nothing_on_sample :
    sampleWorldSetup.subsystem.OnlineSessionPtr = true ∧
    engineCalls (emitted sampleWorldSetup (StartSession sampleEnv sampleWorldSetup)) = [] ∧
    Event.BroadcastStartSessionComplete true ∉
      emitted sampleWorldSetup
        (OnStartSessionComplete sampleEnv sampleWorldSetup NAME_GameSession true) := by
  decide

/-- C11, as the code has it: `StartSession` and `OnStartSessionComplete` have empty
bodies.  Whatever the state of the session interface, `StartSession` makes no
engine call, broadcasts nothing and changes no field of the subsystem, the menu
or the engine's delegate lists; `OnStartSessionComplete` changes nothing and
broadcasts nothing, whatever the engine reports. -/
theorem startSession_is_empty (env : Env) (w : World) (SessionName : FName)
    (bWasSuccessful : Bool) :
    engineCalls (emitted w (StartSession env w)) = [] ∧
    broadcasts (emitted w (StartSession env w)) = [] ∧
    (StartSession env w).subsystem = w.subsystem ∧
    (StartSession env w).menu = w.menu ∧
    (StartSession env w).session = w.session ∧
    OnStartSessionComplete env w SessionName bWasSuccessful = w ∧
    broadcasts (emitted w (OnStartSessionComplete env w SessionName bWasSuccessful)) = [] := by
  simp [StartSession, OnStartSessionComplete, World.emit, emitted, engineCalls, broadcasts,
    Event.isEngineCall, Event.isBroadcast]

/-- C12, evaluated on the code: the menu is bound to the subsystem, the Join
button is disabled, the search succeeded and its only result is of another
match type; `OnFindSessions` enters `JoinSession` for no result and returns
with the Join button still disabled. -/
theorem onFindSessions_no_match_leaves_button_disabled :
    sampleWorldSearching.menu.MultiplayerSessionsSubsystem = true ∧
    sampleWorldSearching.menu.JoinButton.bIsEnabled = false ∧
    joinSessionCalls (emitted sampleWorldSearching
      (UMenu.OnFindSessions sampleEnv sampleWorldSearching [sampleResult "other" "Teams"] true))
      = [] ∧
    (UMenu.OnFindSessions sampleEnv sampleWorldSearching
      [sampleResult "other" "Teams"] true).menu.JoinButton.bIsEnabled = false := by
  decide

/-- The Join button after an `OnFindSessions` that finds no matching result:
enabled when the search failed or returned nothing, left as it was otherwise. -/
theorem onFindSessions_no_match_joinButton (env : Env) (w : World)
    (rs : List FOnlineSessionSearchResult) (b : Bool)
    (hs : w.menu.MultiplayerSessionsSubsystem = true)
    (hnone : rs.find? (fun r => eqIgnoreCase (r.Session.SessionSettings.Get "MatchType" "") w.menu.MatchType)
      = none) :
    (UMenu.OnFindSessions env w rs b).menu.JoinButton =
      if !b || rs.length == 0 then { bIsEnabled := true } else w.menu.JoinButton := by
  have hloop := onFindSessions_loop_eq env (w.emit (Event.MenuOnFindSessions rs b)) rs
  simp only [World.emit_menu, hnone] at hloop
  cases b <;> cases rs <;>
  simp [UMenu.OnFindSessions, hs, hloop, UButton.SetIsEnabled]

/-- A failed destroy completion leaves every field of the subsystem as it was. -/
theorem onDestroySessionComplete_failed_subsystem (env : Env) (w : World) (SessionName : FName) :
    (OnDestroySessionComplete env w SessionName false).subsystem = w.subsystem := by
  cases hv : w.subsystem.OnlineSessionPtr <;>
  cases hbd : w.subsystem.MultiplayerOnDestroySessionCompleteDelegate <;>
  simp [OnDestroySessionComplete, ClearIfValid, BroadcastDestroySessionComplete,
    UMenu.OnDestroySession, World.emit, World.ClearDelegate_Handle, hv, hbd]

/-- The recreate flag after a successful destroy completion: set again exactly
when a recreate was pending and the nested `CreateSession` deferred once more. -/
theorem onDestroySessionComplete_succeeded_flag (env : Env) (w : World) (SessionName : FName) :
    (OnDestroySessionComplete env w SessionName true).subsystem.bCreateSessionOnDestroy =
      (w.subsystem.bCreateSessionOnDestroy && w.subsystem.OnlineSessionPtr
        && env.GetNamedSession NAME_GameSession) := by
  cases hp : w.subsystem.bCreateSessionOnDestroy <;>
  cases hv : w.subsystem.OnlineSessionPtr <;>
  cases hx : env.GetNamedSession NAME_GameSession <;>
  cases hd : env.DestroySessionReturn <;>
  cases hc : env.CreateSessionReturn <;>
  cases hbd : w.subsystem.MultiplayerOnDestroySessionCompleteDelegate <;>
  cases hbc : w.subsystem.MultiplayerOnCreateSessionCompleteDelegate <;>
  simp [OnDestroySessionComplete, ClearIfValid, CreateSession, DestroySession,
    BroadcastDestroySessionComplete, BroadcastCreateSessionComplete, UMenu.OnDestroySession,
    UMenu.OnCreateSession, World.emit, World.AddDelegate_Handle, World.ClearDelegate_Handle,
    hp, hv, hx, hd, hc, hbd, hbc]

/-- C13 fails as stated: a create was deferred on the sample world and the engine
reports the destroy as failed; the flag is still set afterwards, and a later
successful destroy completion, with the session gone, calls the engine's
`CreateSession` with the parameters of that earlier request. -/
theorem pending_recreate_survives_failed_destroy :
    (OnDestroySessionComplete sampleEnvExisting sampleWorldDeferred NAME_GameSession
      false).subsystem.bCreateSessionOnDestroy = true ∧
    (engineCreateSessionCalls (emitted
        (OnDestroySessionComplete sampleEnvExisting sampleWorldDeferred NAME_GameSession false)
        (OnDestroySessionComplete sampleEnv
          (OnDestroySessionComplete sampleEnvExisting sampleWorldDeferred NAME_GameSession false)
          NAME_GameSession true))).map
      (fun s => (s.NumPublicConnections, s.Get "MatchType" "")) = [(4, "FreeForAll")] := by
  decide

/-- C13, as the code has it: a failed destroy completion leaves the whole
subsystem state as it was, the recreate flag and the stored parameters
included, so a pending recreate stays pending; after a successful completion
the flag is false unless a recreate was pending, the interface is valid and a
game session still exists, in which case the nested `CreateSession` has set it
again. -/
theorem recreate_flag_after_destroy_completion (env : Env) (w : World) (SessionName : FName)
    (bWasSuccessful : Bool) :
    (OnDestroySessionComplete env w SessionName false).subsystem = w.subsystem ∧
    (OnDestroySessionComplete env w SessionName bWasSuccessful).subsystem.bCreateSessionOnDestroy =
      if bWasSuccessful then
        (w.subsystem.bCreateSessionOnDestroy && w.subsystem.OnlineSessionPtr
          && env.GetNamedSession NAME_GameSession)
      else w.subsystem.bCreateSessionOnDestroy := by
  refine ⟨onDestroySessionComplete_failed_subsystem env w SessionName, ?_⟩
  cases bWasSuccessful
  · simp [onDestroySessionComplete_failed_subsystem env w SessionName]
  · simp [onDestroySessionComplete_succeeded_flag env w SessionName]

/-- C14: with an invalid session interface, `JoinSession` broadcasts
`UnknownError` once and `DestroySession` broadcasts `false` once, each on its own
delegate and as the only broadcast; neither makes an engine call, the engine's
delegate lists are as they were, and every field of the subsystem is as it was. -/
theorem unavailable_service_reported (env : Env) (w : World) (r : FOnlineSessionSearchResult)
    (hinvalid : w.subsystem.OnlineSessionPtr = false) :
    (joinBroadcasts (emitted w (JoinSession env w r)) = [EOnJoinSessionCompleteResult.UnknownError] ∧
      broadcasts (emitted w (JoinSession env w r)) =
        [Event.BroadcastJoinSessionComplete EOnJoinSessionCompleteResult.UnknownError] ∧
      engineCalls (emitted w (JoinSession env w r)) = [] ∧
      (JoinSession env w r).session = w.session ∧
      (JoinSession env w r).subsystem = w.subsystem) ∧
    (destroyBroadcasts (emitted w (DestroySession env w)) = [false] ∧
      broadcasts (emitted w (DestroySession env w)) = [Event.BroadcastDestroySessionComplete false] ∧
      engineCalls (emitted w (DestroySession env w)) = [] ∧
      (DestroySession env w).session = w.session ∧
      (DestroySession env w).subsystem = w.subsystem) := by
  constructor
  · cases hb : w.subsystem.MultiplayerOnJoinSessionCompleteDelegate <;>
    cases hs : w.menu.MultiplayerSessionsSubsystem <;>
    simp [JoinSession, BroadcastJoinSessionComplete, UMenu.OnJoinSession, World.emit, emitted,
      joinBroadcasts, broadcasts, engineCalls, Event.isBroadcast, Event.isEngineCall,
      UButton.SetIsEnabled, hinvalid, hb, hs]
  · cases hb : w.subsystem.MultiplayerOnDestroySessionCompleteDelegate <;>
    simp [DestroySession, BroadcastDestroySessionComplete, UMenu.OnDestroySession, World.emit,
      emitted, destroyBroadcasts, broadcasts, engineCalls, Event.isBroadcast,
      Event.isEngineCall, hinvalid, hb]

/-- Witness for C14 on the sample world without an online subsystem. -/
theorem unavailable_service_reported_witness :
    sampleWorldOffline.subsystem.OnlineSessionPtr = false ∧
    joinBroadcasts (emitted sampleWorldOffline
      (JoinSession sampleEnv sampleWorldOffline (sampleResult "host" "FreeForAll")))
      = [EOnJoinSessionCompleteResult.UnknownError] ∧
    destroyBroadcasts (emitted sampleWorldOffline (DestroySession sampleEnv sampleWorldOffline))
      = [false] :=
  have h := unavailable_service_reported sampleEnv sampleWorldOffline
    (sampleResult "host" "FreeForAll") (by decide)
  ⟨by decide, h.1.1, h.2.1⟩

/-- C15: with an invalid session interface, `CreateSession` and `FindSessions` leave
every field of the subsystem as it was, make no engine call and broadcast
nothing; after `HostButtonClicked` or `JoinButtonClicked` the clicked button is
disabled and no completion callback of the menu has run. -/
theorem unavailable_service_silent (env : Env) (w : World) (n : Int) (m : FString) (k : Int)
    (hinvalid : w.subsystem.OnlineSessionPtr = false) :
    ((CreateSession env w n m).subsystem = w.subsystem ∧
      broadcasts (emitted w (CreateSession env w n m)) = [] ∧
      engineCalls (emitted w (CreateSession env w n m)) = []) ∧
    ((FindSessions env w k).subsystem = w.subsystem ∧
      broadcasts (emitted w (FindSessions env w k)) = [] ∧
      engineCalls (emitted w (FindSessions env w k)) = []) ∧
    ((UMenu.HostButtonClicked env w).menu.HostButton.bIsEnabled = false ∧
      menuCallbacks (emitted w (UMenu.HostButtonClicked env w)) = []) ∧
    ((UMenu.JoinButtonClicked env w).menu.JoinButton.bIsEnabled = false ∧
      menuCallbacks (emitted w (UMenu.JoinButtonClicked env w)) = []) := by
  refine ⟨?_, ?_, ?_, ?_⟩
  · simp [CreateSession, World.emit, emitted, broadcasts, engineCalls, Event.isBroadcast,
      Event.isEngineCall, hinvalid]
  · simp [FindSessions, World.emit, emitted, broadcasts, engineCalls, Event.isBroadcast,
      Event.isEngineCall, hinvalid]
  · cases hs : w.menu.MultiplayerSessionsSubsystem <;>
    simp [UMenu.HostButtonClicked, CreateSession, World.emit, emitted, menuCallbacks,
      Event.isMenuCallback, UButton.SetIsEnabled, hinvalid, hs]
  · cases hs : w.menu.MultiplayerSessionsSubsystem <;>
    simp [UMenu.JoinButtonClicked, FindSessions, World.emit, emitted, menuCallbacks,
      Event.isMenuCallback, UButton.SetIsEnabled, hinvalid, hs]

/-- Witness for C15 on the sample world without an online subsystem. -/
theorem unavailable_service_silent_witness :
    sampleWorldOffline.subsystem.OnlineSessionPtr = false ∧
    (UMenu.HostButtonClicked sampleEnv sampleWorldOffline).menu.HostButton.bIsEnabled = false ∧
    menuCallbacks (emitted sampleWorldOffline (UMenu.HostButtonClicked sampleEnv sampleWorldOffline))
      = [] :=
  have h := unavailable_service_silent sampleEnv sampleWorldOffline 4 "FreeForAll" 10000
    (by decide)
  ⟨by decide, h.2.2.1.1, h.2.2.1.2⟩

end MenuSystem
